import Mathlib

/-!
# Verification of the product-listing data synchronization engine

Shallow embedding of the data-synchronization core of the dashboard
(`useProducts` hook and its module-level `ProductsCache`), together with
proofs settling the specification claims about it.

Modelling conventions:
* JS `Date.now()` timestamps are `Nat` milliseconds, threaded explicitly.
* Search-parameter objects are insertion-ordered association lists of
  field name to JSON value, so that JS property-insertion order (which
  `JSON.stringify` observes) is representable.
* The asynchronous fetch paths are split at their suspension points:
  a `fetchStart`/`loadMoreStart` step performs the synchronous prefix up to
  issuing the network call, and a `deliver` step runs the continuation for
  one pending request once the platform resolves it.  Aborting a request's
  `AbortController` while the request is pending makes the platform reject
  the awaited promise with an `AbortError`, which the source's catch block
  turns into an early return; `deliver` models that rejection.
-/

namespace PalmSync

/-- A JSON-representable field value of a `ProductSearchParams` object.
`undefined` is the JS `undefined` value, which `JSON.stringify` drops. -/
inductive JsonVal where
  | str (s : String)
  | num (n : Int)
  | bool (b : Bool)
  | null
  | undefined
deriving DecidableEq, Repr

/-- `JSON.stringify` escaping for one character of a string value. -/
def jsEscapeChar (c : Char) : String :=
  if c = '\"' then "\\\"" else if c = '\\' then "\\\\" else String.singleton c

/-- `JSON.stringify` escaping for a string value. -/
def jsEscape (s : String) : String :=
  String.join (s.data.map jsEscapeChar)

/-- Rendering of one field value by `JSON.stringify`; `none` means the field
is dropped from the output (JS `undefined`). -/
def JsonVal.render : JsonVal → Option String
  | .str s => some ("\"" ++ jsEscape s ++ "\"")
  | .num n => some (toString n)
  | .bool b => some (if b then "true" else "false")
  | .null => some "null"
  | .undefined => none

/-- A `ProductSearchParams` object: fields in property-insertion order.
The source's search parameters (`query`, `page`, `per_page`, ...) are scalar
fields; the engine never inspects them, only serializes and forwards them. -/
abbrev SearchParams : Type := List (String × JsonVal)

/-- `JSON.stringify(params)`: fields rendered in insertion order,
`undefined`-valued fields skipped.  This is `ProductsCache.generateKey`
(source lines 37-39). -/
def generateKey (params : SearchParams) : String :=
  "\x7b" ++ String.intercalate ","
    (params.filterMap fun kv =>
      (JsonVal.render kv.2).map fun s => "\"" ++ jsEscape kv.1 ++ "\":" ++ s)
    ++ "\x7d"

/-- Canonical view of one field of a parameter object: absent fields,
`undefined` fields and `null` fields all canonicalize to `none`. -/
def canonField (params : SearchParams) (k : String) : Option JsonVal :=
  match params.lookup k with
  | none => none
  | some .undefined => none
  | some .null => none
  | some v => some v

/-- Field-wise equality of two parameter objects, irrespective of property
insertion order, with absent, `undefined` and `null` canonicalized
identically. -/
def FieldwiseEq (p₁ p₂ : SearchParams) : Prop :=
  ∀ k, canonField p₁ k = canonField p₂ k

/-- JS object-spread update of a single field: an existing field keeps its
position and takes the new value, a new field is appended. -/
def setField (params : SearchParams) (k : String) (v : JsonVal) : SearchParams :=
  if params.any (fun kv => kv.1 = k) then
    params.map fun kv => if kv.1 = k then (k, v) else kv
  else
    params ++ [(k, v)]

/-- JS object spread `{...base, ...upd}`: shallow field replacement. -/
def mergeParams (base upd : SearchParams) : SearchParams :=
  upd.foldl (fun acc kv => setField acc kv.1 kv.2) base

/-- A product record.  The engine passes products through without inspecting
them; the optional pricing/metadata/category/brand fields, never read by the
sync core, are elided. -/
structure Product where
  id : Int
  title : String
  price : Int
  image_url : Option String
  status : String
deriving DecidableEq, Repr

/-- Pagination metadata snapshot returned by the backend. -/
structure PaginationMetadata where
  current_page : Int
  last_page : Int
  per_page : Int
  total : Int
  has_next_page : Bool
  has_previous_page : Bool
deriving DecidableEq, Repr

/-- The decoded body of a `PaginatedProductResponse`: the envelope's
`success` flag and optional `message`, and the payload's `data.data` item
array (`none` when the field is absent or `null`) and `data.pagination`. -/
structure Envelope where
  success : Bool
  message : Option String
  items : Option (List Product)
  pagination : Option PaginationMetadata
deriving DecidableEq, Repr

/-- JS `string || default`: the empty string is falsy. -/
def jsOr (s : Option String) (d : String) : String :=
  match s with
  | some m => if m = "" then d else m
  | none => d

/-- JS `number || 0` on a present number. -/
def jsNumOrZero (n : Int) : Int :=
  if n = 0 then 0 else n

/-- One entry of `ProductsCache.cache`: a product-list snapshot plus the
`Date.now()` timestamp of insertion. -/
structure CacheEntry where
  data : List Product
  timestamp : Nat
deriving DecidableEq, Repr

/-- The module-level `ProductsCache` (source lines 28-63), with entries keyed
by `generateKey`.  JS `Map.set` on an existing key replaces the value in
place; an absent key is appended, preserving insertion order. -/
structure ProductsCache where
  cache : List (String × CacheEntry)
  timeout : Nat
deriving DecidableEq, Repr

/-- A `ProductsCache` with no entries and the given TTL. -/
def ProductsCache.empty (timeout : Nat) : ProductsCache :=
  ⟨[], timeout⟩

/-- The default constructor TTL: 5 minutes. -/
def defaultCacheTimeout : Nat := 5 * 60 * 1000

/-- `ProductsCache.get` (source lines 41-53), with `Date.now()` made the
explicit argument `now`: a missing key returns `null`; an expired entry
(`now - cached.timestamp > this.timeout`) is deleted and `null` returned;
otherwise the stored list is returned.  The pair carries the possibly
updated map alongside the result. -/
def ProductsCache.get (c : ProductsCache) (now : Nat) (params : SearchParams) :
    Option (List Product) × ProductsCache :=
  let key := generateKey params
  match c.cache.lookup key with
  | none => (none, c)
  | some cached =>
    if now - cached.timestamp > c.timeout then
      (none, { c with cache := c.cache.filter fun kv => kv.1 ≠ key })
    else
      (some cached.data, c)

/-- `ProductsCache.set` (source lines 55-58): stores a copy of `data` under
`generateKey params` with timestamp `now`, replacing any existing entry
(the spread copy `[...data]` is the identity on immutable lists; the
aliasing-sensitive model is `RefCache` below). -/
def ProductsCache.set (c : ProductsCache) (now : Nat) (params : SearchParams)
    (data : List Product) : ProductsCache :=
  let key := generateKey params
  let entry : CacheEntry := ⟨data, now⟩
  if c.cache.any (fun kv => kv.1 = key) then
    { c with cache := c.cache.map fun kv => if kv.1 = key then (key, entry) else kv }
  else
    { c with cache := c.cache ++ [(key, entry)] }

/-- `ProductsCache.clear` (source lines 60-62). -/
def ProductsCache.clear (c : ProductsCache) : ProductsCache :=
  { c with cache := [] }

/-- The hook's `ProductsState` (source lines 19-25). -/
structure ProductsState where
  products : List Product
  loading : Bool
  error : Option String
  pagination : Option PaginationMetadata
  lastFetchTime : Option Nat
deriving DecidableEq, Repr

/-- The retry slot behind `retryTimeoutRef`: the `setTimeout` delay, the
parameters the armed `retryFn` closure will refetch, and whether the timer is
still armed.  (`clearTimeout` in the effect cleanups disarms the timer but
leaves the stale id in the ref, so `armed` can be false while the slot is
occupied.) -/
structure RetryTimer where
  delayMs : Nat
  params : SearchParams
  armed : Bool
deriving DecidableEq, Repr

/-- What a pending network request will do when it resolves: a primary
`fetchProducts(params)` request, or a `loadMore` request for the merged
next-page parameters. -/
inductive ReqKind where
  | primary (params : SearchParams)
  | more (nextPageParams : SearchParams)
deriving DecidableEq, Repr

/-- A network request issued by the engine and not yet resolved.  `ctrl` is
the id of the `AbortController` whose signal was passed to `fetch`;
`loadMore`'s `fetch` call passes no signal, hence `none`. -/
structure Request where
  id : Nat
  ctrl : Option Nat
  kind : ReqKind
deriving DecidableEq, Repr

/-- The whole observable state of one `useProducts` instance: the React
state, the current search parameters, the shared cache, the refs
(`abortControllerRef` as `currentCtrl`, `retryTimeoutRef` as `retryTimeout`),
the set of controllers on which `abort()` has been called, the requests
still in flight, a fresh-id counter, and the current `Date.now()`. -/
structure EngineState where
  state : ProductsState
  searchParams : SearchParams
  cache : ProductsCache
  currentCtrl : Option Nat
  abortedCtrls : List Nat
  retryTimeout : Option RetryTimer
  pending : List Request
  nextId : Nat
  now : Nat
deriving DecidableEq, Repr

/-- The hook's initial state (source lines 89-99): `loading` starts at
`autoFetch`, everything else empty. -/
def initEngine (initialParams : SearchParams) (autoFetch : Bool)
    (cache : ProductsCache) (now : Nat) : EngineState :=
  { state := ⟨[], autoFetch, none, none, none⟩
    searchParams := initialParams
    cache := cache
    currentCtrl := none
    abortedCtrls := []
    retryTimeout := none
    pending := []
    nextId := 0
    now := now }

/-- `abortControllerRef.current?.abort()`: marks the current controller, if
any, as aborted.  A pending `fetch` awaiting on that controller's signal
will reject with an `AbortError`. -/
def cancelCurrent (es : EngineState) : EngineState :=
  match es.currentCtrl with
  | some c => { es with abortedCtrls := c :: es.abortedCtrls }
  | none => es

/-- `handleError` (source lines 114-134): records the message, drops
`loading`, and — when a retry closure was supplied (`retryParams` carries the
parameters it would refetch) and no retry slot is occupied — arms a single
2000 ms retry timer. -/
def handleError (es : EngineState) (errorMessage : String)
    (retryParams : Option SearchParams) : EngineState :=
  let es' := { es with
    state := { es.state with error := some errorMessage, loading := false } }
  match retryParams with
  | some p =>
    if es'.retryTimeout.isNone then
      { es' with retryTimeout := some ⟨2000, p, true⟩ }
    else es'
  | none => es'

/-- The synchronous prefix of `fetchProducts(params)` (source lines
140-182): abort the previous request, consult the cache, publish a cache hit
when not loading and return without network, otherwise install a fresh
`AbortController`, raise `loading`, and issue the request.  The issued
request and its controller both take the id `es.nextId`. -/
def fetchStart (es : EngineState) (params : SearchParams) : EngineState :=
  let es := cancelCurrent es
  let gc := es.cache.get es.now params
  let es := { es with cache := gc.2 }
  match gc.1 with
  | some cachedData =>
    if es.state.loading then
      fetchIssue es params
    else
      { es with state := { es.state with
          products := cachedData, error := none, lastFetchTime := some es.now } }
  | none => fetchIssue es params
where
  /-- Source lines 158-182: new controller, `loading := true`, request out. -/
  fetchIssue (es : EngineState) (params : SearchParams) : EngineState :=
    { es with
      currentCtrl := some es.nextId
      state := { es.state with loading := true, error := none }
      pending := es.pending ++ [⟨es.nextId, some es.nextId, .primary params⟩]
      nextId := es.nextId + 1 }

/-- The possible resolutions of an issued request, as the source's
continuation discriminates them: `!response.ok` with the HTTP status, a
transport-level rejection carrying a message, or a decoded JSON body. -/
inductive NetOutcome where
  | httpError (status : Nat)
  | netError (msg : String)
  | ok (resp : Envelope)
deriving DecidableEq, Repr

/-- Whether an outcome is a genuine failure for the primary fetch path:
a non-2xx status, a transport error, or an envelope with `success=false`. -/
def NetOutcome.isFailure : NetOutcome → Bool
  | .httpError _ => true
  | .netError _ => true
  | .ok resp => !resp.success

/-- The continuation of `fetchProducts` after its awaits resolve (source
lines 184-215), for a request made with parameters `params`: on `ok` +
`success` it writes through to the cache and replaces products and
pagination; any thrown failure lands in the catch block, which routes
non-abort errors to `handleError` with a retry closure over the same
`params`. -/
def fetchResolve (es : EngineState) (params : SearchParams) :
    NetOutcome → EngineState
  | .httpError status =>
      handleError es ("HTTP error! status: " ++ toString status) (some params)
  | .netError msg => handleError es msg (some params)
  | .ok resp =>
      if resp.success then
        let products := resp.items.getD []
        let pagination := resp.pagination
        { es with
          cache := es.cache.set es.now params products
          state := { es.state with
            products := products
            pagination := pagination
            loading := false
            error := none
            lastFetchTime := some es.now } }
      else
        handleError es (jsOr resp.message "Failed to fetch products") (some params)

/-- The continuation of `loadMore` after its awaits resolve (source lines
243-260): only an envelope with `success` and a present item array updates
state, appending the new items and replacing pagination; thrown failures go
to `handleError` without a retry closure; any other body is ignored. -/
def loadMoreResolve (es : EngineState) : NetOutcome → EngineState
  | .httpError status =>
      handleError es ("HTTP error! status: " ++ toString status) none
  | .netError msg => handleError es msg none
  | .ok resp =>
      match resp.items with
      | some newItems =>
        if resp.success then
          { es with state := { es.state with
              products := es.state.products ++ newItems
              pagination := resp.pagination
              loading := false
              error := none } }
        else es
      | none => es

/-- Platform delivery of the resolution of one pending request: the request
leaves the pending set, and its continuation runs — unless its controller
was aborted while it was in flight, in which case the awaited promise
rejects with an `AbortError` and the catch block returns without touching
state (source lines 208-212). -/
def deliver (es : EngineState) (req : Request) (out : NetOutcome) : EngineState :=
  let es' := { es with pending := es.pending.filter fun r => r.id ≠ req.id }
  match req.kind with
  | .primary params =>
    match req.ctrl with
    | some c => if c ∈ es.abortedCtrls then es' else fetchResolve es' params out
    | none => fetchResolve es' params out
  | .more _ => loadMoreResolve es' out

/-- The synchronous prefix of `loadMore` (source lines 226-241): a no-op
without a next page or while loading; otherwise raise `loading` and issue an
uncancellable request (no abort signal) for `current_page + 1` with the
current parameters. -/
def loadMoreStart (es : EngineState) : EngineState :=
  match es.state.pagination with
  | none => es
  | some pg =>
    if !pg.has_next_page || es.state.loading then es
    else
      let nextPageParams :=
        setField es.searchParams "page" (.num (jsNumOrZero pg.current_page + 1))
      { es with
        state := { es.state with loading := true }
        pending := es.pending ++ [⟨es.nextId, none, .more nextPageParams⟩]
        nextId := es.nextId + 1 }

/-- `updateSearchParams` (source lines 264-269): spread-merge of the partial
parameters into the current ones.  Nothing else of the instance is touched. -/
def updateSearchParams (es : EngineState) (newParams : SearchParams) : EngineState :=
  { es with searchParams := mergeParams es.searchParams newParams }

/-- The retry timer firing: the callback clears `retryTimeoutRef` and runs
the stored `retryFn`, i.e. `fetchProducts` with the failed call's
parameters (source lines 129-132).  A disarmed (cleared) timer never fires. -/
def retryFire (es : EngineState) : EngineState :=
  match es.retryTimeout with
  | some t =>
    if t.armed then fetchStart { es with retryTimeout := none } t.params else es
  | none => es

/-- Re-run of the initial-fetch effect (source lines 287-304) after its
`searchParams` dependency changed: React first runs the previous cleanup —
aborting the current controller and clearing (but not nulling) the retry
timer — then the effect body, which dispatches `fetchProducts(searchParams)`
whenever `autoFetch` is set. -/
def searchParamsEffect (es : EngineState) (autoFetch : Bool) : EngineState :=
  let es := cancelCurrent es
  let es := { es with
    retryTimeout := es.retryTimeout.map fun t => { t with armed := false } }
  if autoFetch then fetchStart es es.searchParams else es

/-!
## Aliasing model of the cache

`ProductsCache` above treats product arrays as immutable values, which is
sound for the engine because the engine never mutates an array in place.  To
reason about aliasing between the cache and its callers (who may mutate),
the same two methods are remodelled over an explicit heap of JS arrays:
a reference is an index into the heap, `set` allocates the spread copy
`[...data]` (source line 57), and `get` hands back the stored reference
itself (source line 52). -/

/-- The heap of JS product arrays: index = array reference. -/
abbrev Heap : Type := List (List Product)

/-- Read the array behind a reference. -/
def Heap.read (h : Heap) (r : Nat) : List Product :=
  h.getD r []

/-- Allocate a fresh array with the given contents, returning the heap and
the fresh reference. -/
def Heap.alloc (h : Heap) (xs : List Product) : Heap × Nat :=
  (h ++ [xs], h.length)

/-- In-place mutation of the array behind a reference (what a caller does
to a list it holds). -/
def Heap.write (h : Heap) (r : Nat) (xs : List Product) : Heap :=
  h.set r xs

/-- A cache entry holding a reference to the stored array. -/
structure RefEntry where
  dataRef : Nat
  timestamp : Nat
deriving DecidableEq, Repr

/-- `ProductsCache` with array identity made explicit. -/
structure RefCache where
  cache : List (String × RefEntry)
  timeout : Nat
deriving DecidableEq, Repr

/-- `set(params, data)` on the heap model: `{ data: [...data], timestamp }` —
the spread allocates a fresh copy of the caller's array, and the entry is
stored under the key, replacing any previous one. -/
def RefCache.set (c : RefCache) (h : Heap) (now : Nat) (params : SearchParams)
    (dataRef : Nat) : RefCache × Heap :=
  let key := generateKey params
  let ac := h.alloc (h.read dataRef)
  let entry : RefEntry := ⟨ac.2, now⟩
  let cache :=
    if c.cache.any (fun kv => kv.1 = key) then
      c.cache.map fun kv => if kv.1 = key then (key, entry) else kv
    else
      c.cache ++ [(key, entry)]
  ({ c with cache := cache }, ac.1)

/-- `get(params)` on the heap model: a live entry returns the *stored*
reference (`return cached.data` copies nothing); an expired entry is
deleted.  The heap is untouched. -/
def RefCache.get (c : RefCache) (now : Nat) (params : SearchParams) :
    Option Nat × RefCache :=
  let key := generateKey params
  match c.cache.lookup key with
  | none => (none, c)
  | some cached =>
    if now - cached.timestamp > c.timeout then
      (none, { c with cache := c.cache.filter fun kv => kv.1 ≠ key })
    else
      (some cached.dataRef, c)

/-!
## Concrete values for witnesses and counterexamples
-/

/-- A sample product. -/
def prodA : Product := ⟨1, "Widget", 10, none, "active"⟩

/-- A second sample product. -/
def prodB : Product := ⟨2, "Gadget", 20, some "img", "active"⟩

/-- Two parameter objects that are field-wise equal but were built with the
opposite property-insertion order. -/
def c2p1 : SearchParams := [("query", .str "phone"), ("page", .num 1)]

/-- See `c2p1`. -/
def c2p2 : SearchParams := [("page", .num 1), ("query", .str "phone")]

/-- Parameters used in the cache-aliasing scenario. -/
def c9params : SearchParams := [("query", .str "phone")]

/-- A heap with one caller-owned array (reference 0) holding one product. -/
def c9h0 : Heap := [[prodA]]

/-- The cache and heap after `set(c9params, <array 0>)` at `t = 0`: the cache
holds reference 1, a copy of array 0. -/
def c9setRes : RefCache × Heap := (RefCache.mk [] 300000).set c9h0 0 c9params 0

/-- An engine state with one primary request in flight and no retry pending. -/
def c4es : EngineState :=
  { state := ⟨[], true, none, none, none⟩
    searchParams := []
    cache := ProductsCache.empty defaultCacheTimeout
    currentCtrl := some 0
    abortedCtrls := []
    retryTimeout := none
    pending := [⟨0, some 0, .primary []⟩]
    nextId := 1
    now := 50 }

/-- A page-1 pagination snapshot with a next page. -/
def c5pg : PaginationMetadata := ⟨1, 3, 10, 30, true, false⟩

/-- A pending `loadMore` request for page 2. -/
def c5req : Request := ⟨5, none, .more [("page", .num 2)]⟩

/-- An engine state in the middle of a `loadMore`: one product loaded,
`loading` raised, the page-2 request in flight. -/
def c5es : EngineState :=
  { state := ⟨[prodA], true, none, some c5pg, some 100⟩
    searchParams := []
    cache := ProductsCache.empty defaultCacheTimeout
    currentCtrl := none
    abortedCtrls := []
    retryTimeout := none
    pending := [c5req]
    nextId := 6
    now := 200 }

/-- Page-1 pagination for the C6 witness. -/
def c6pg : PaginationMetadata := ⟨1, 3, 10, 30, true, false⟩

/-- The page-2 pagination snapshot the C6 witness's response carries. -/
def c6newPg : PaginationMetadata := ⟨2, 3, 10, 30, true, true⟩

/-- A settled engine state with one product loaded and a next page
available. -/
def c6es : EngineState :=
  { state := ⟨[prodA], false, none, some c6pg, some 100⟩
    searchParams := []
    cache := ProductsCache.empty defaultCacheTimeout
    currentCtrl := none
    abortedCtrls := []
    retryTimeout := none
    pending := []
    nextId := 0
    now := 200 }

/-- Page-1 pagination for the C7 trace. -/
def c7pg : PaginationMetadata := ⟨1, 2, 1, 2, true, false⟩

/-- C7 trace, step 0: a fresh auto-fetching engine. -/
def c7es0 : EngineState :=
  initEngine [] true (ProductsCache.empty defaultCacheTimeout) 0

/-- C7 trace, step 1: `fetchProducts({})` issues request 0 (controller 0). -/
def c7es1 : EngineState := fetchStart c7es0 []

/-- C7 trace, step 2: request 0 resolves with one product and a next page. -/
def c7es2 : EngineState :=
  deliver c7es1 ⟨0, some 0, .primary []⟩ (.ok ⟨true, none, some [prodA], some c7pg⟩)

/-- C7 trace, step 3: `loadMore()` issues request 1 with no abort signal. -/
def c7es3 : EngineState := loadMoreStart c7es2

/-- C7 trace, step 4: a new `fetchProducts` begins while the `loadMore`
request is still in flight. -/
def c7es4 : EngineState := fetchStart c7es3 [("query", .str "x")]

/-- An engine state with a live cache entry for the current parameters and a
fetch already in flight (`loading=true`). -/
def c10esBusy : EngineState :=
  { state := ⟨[], true, none, none, none⟩
    searchParams := []
    cache := (ProductsCache.empty defaultCacheTimeout).set 0 [] [prodA]
    currentCtrl := some 0
    abortedCtrls := []
    retryTimeout := none
    pending := [⟨0, some 0, .primary []⟩]
    nextId := 1
    now := 100 }

/-- The same situation with no fetch in flight (`loading=false`). -/
def c10esIdle : EngineState :=
  { state := ⟨[], false, none, none, none⟩
    searchParams := []
    cache := (ProductsCache.empty defaultCacheTimeout).set 0 [] [prodA]
    currentCtrl := none
    abortedCtrls := []
    retryTimeout := none
    pending := []
    nextId := 1
    now := 100 }

/-- C1 witness: a fresh engine from which two overlapping fetches start. -/
def c1es0 : EngineState :=
  initEngine [] true (ProductsCache.empty defaultCacheTimeout) 0

/-- The late response of the superseded first fetch: a success carrying
`prodA`, which must never be applied. -/
def c1outA : NetOutcome := .ok ⟨true, some "late", some [prodA], none⟩

/-- The envelope of the second (current) fetch's response. -/
def c1respB : Envelope := ⟨true, none, some [prodB], none⟩

/-- The second fetch's response as a delivery outcome. -/
def c1outB : NetOutcome := .ok c1respB

/-- C8 trace, step 0: a fresh auto-fetching engine with no request pending
(initial effect not yet run). -/
def c8es0 : EngineState :=
  initEngine [] true (ProductsCache.empty defaultCacheTimeout) 0

/-- C8 trace, step 1: the caller merges `{query:"x"}` via
`updateSearchParams`; no fetch or refetch is invoked. -/
def c8es1 : EngineState := updateSearchParams c8es0 [("query", .str "x")]

/-- C8 trace, step 2: React re-runs the parameter effect because its
`searchParams` dependency changed. -/
def c8es2 : EngineState := searchParamsEffect c8es1 true

end PalmSync

namespace PalmSync

/-!
## Association-list lemmas
-/

/-- Lookup at the head key of a cons. -/
theorem lookup_cons_self {α : Type} (k : String) (v : α) (l : List (String × α)) :
    ((k, v) :: l).lookup k = some v := by
  simp [List.lookup]

/-- Lookup skips a head with a different key. -/
theorem lookup_cons_ne {α : Type} (k k' : String) (v : α) (l : List (String × α))
    (h : k' ≠ k) : ((k, v) :: l).lookup k' = l.lookup k' := by
  have hke : (k' == k) = false := beq_eq_false_iff_ne.mpr h
  simp [List.lookup, hke]

/-- Looking a key up after replacing its entries in place finds the new
entry, provided the key occurs. -/
theorem lookup_replace {α : Type} (l : List (String × α)) (key : String) (e : α)
    (h : l.any (fun kv => kv.1 = key) = true) :
    (l.map fun kv => if kv.1 = key then (key, e) else kv).lookup key = some e := by
  induction l with
  | nil => simp at h
  | cons kv rest ih =>
    rcases kv with ⟨k, v⟩
    by_cases hk : k = key
    · subst hk
      rw [List.map_cons]
      show List.lookup k ((if k = k then (k, e) else (k, v)) :: _) = some e
      rw [if_pos rfl, lookup_cons_self]
    · have h' : rest.any (fun kv => kv.1 = key) = true := by
        simp only [List.any_cons, Bool.or_eq_true, decide_eq_true_eq] at h
        exact h.resolve_left hk
      rw [List.map_cons]
      show List.lookup key ((if k = key then (key, e) else (k, v)) :: _) = some e
      rw [if_neg hk, lookup_cons_ne _ _ _ _ (Ne.symm hk)]
      exact ih h'

/-- Replacement leaves the entries of other keys alone. -/
theorem lookup_replace_ne {α : Type} (l : List (String × α)) (key k' : String)
    (e : α) (h : k' ≠ key) :
    (l.map fun kv => if kv.1 = key then (key, e) else kv).lookup k' =
      l.lookup k' := by
  induction l with
  | nil => rfl
  | cons kv rest ih =>
    rcases kv with ⟨k, v⟩
    rw [List.map_cons]
    show List.lookup k' ((if k = key then (key, e) else (k, v)) :: _) = _
    by_cases hk : k = key
    · rw [if_pos hk, lookup_cons_ne _ _ _ _ h, ih, hk,
        lookup_cons_ne _ _ _ _ (hk ▸ h)]
    · by_cases hk' : k' = k
      · subst hk'
        rw [if_neg hk, lookup_cons_self, lookup_cons_self]
      · rw [if_neg hk, lookup_cons_ne _ _ _ _ hk', ih, lookup_cons_ne _ _ _ _ hk']

/-- Looking a key up in `l ++ [(key, e)]` finds `e` when `l` lacks the key. -/
theorem lookup_append_single {α : Type} (l : List (String × α)) (key : String)
    (e : α) (h : l.any (fun kv => kv.1 = key) = false) :
    (l ++ [(key, e)]).lookup key = some e := by
  induction l with
  | nil => simp [List.lookup]
  | cons kv rest ih =>
    rcases kv with ⟨k, v⟩
    simp only [List.any_cons, Bool.or_eq_false_iff, decide_eq_false_iff_not] at h
    rw [List.cons_append, lookup_cons_ne _ _ _ _ (Ne.symm h.1)]
    exact ih h.2

/-- Appending an entry of a fresh key leaves other lookups alone. -/
theorem lookup_append_single_ne {α : Type} (l : List (String × α))
    (key k' : String) (e : α) (h : k' ≠ key) :
    (l ++ [(key, e)]).lookup k' = l.lookup k' := by
  induction l with
  | nil => simpa [List.lookup] using lookup_cons_ne key k' e [] h
  | cons kv rest ih =>
    rcases kv with ⟨k, v⟩
    by_cases hk : k' = k
    · subst hk
      rw [List.cons_append, lookup_cons_self, lookup_cons_self]
    · rw [List.cons_append, lookup_cons_ne _ _ _ _ hk, ih, lookup_cons_ne _ _ _ _ hk]

/-- Removing every entry of a key makes its lookup empty. -/
theorem lookup_filter_ne {α : Type} (l : List (String × α)) (key : String) :
    (l.filter fun kv => kv.1 ≠ key).lookup key = none := by
  induction l with
  | nil => rfl
  | cons kv rest ih =>
    rcases kv with ⟨k, v⟩
    by_cases hk : k = key
    · simpa [List.filter_cons, hk] using ih
    · have hd : (decide ¬(k = key)) = true := by simp [hk]
      rw [List.filter_cons]
      show List.lookup key (if (decide ¬((k, v).1 = key)) = true then _ else _) = none
      rw [show (decide ¬((k, v).1 = key)) = true from hd, if_pos rfl,
        lookup_cons_ne _ _ _ _ (Ne.symm hk)]
      exact ih

/-- An entry written by `ProductsCache.set` is found by lookup. -/
theorem ProductsCache.lookup_set (c : ProductsCache) (now : Nat)
    (params : SearchParams) (data : List Product) :
    (c.set now params data).cache.lookup (generateKey params) =
      some ⟨data, now⟩ := by
  unfold ProductsCache.set
  by_cases h : c.cache.any (fun kv => kv.1 = generateKey params) = true
  · simpa [h] using lookup_replace c.cache (generateKey params) ⟨data, now⟩ h
  · have h' := eq_false_of_ne_true h
    simpa [h'] using lookup_append_single c.cache (generateKey params) ⟨data, now⟩ h'

/-- `set` never changes the configured TTL. -/
theorem ProductsCache.timeout_set (c : ProductsCache) (now : Nat)
    (params : SearchParams) (data : List Product) :
    (c.set now params data).timeout = c.timeout := by
  unfold ProductsCache.set
  by_cases h : c.cache.any (fun kv => kv.1 = generateKey params) = true <;> simp [h]

/-- C3: a cache entry stored at time `t` is served by `get` at any `now` with
`now - t ≤ ttl` (leaving the cache unchanged), and a `get` with
`now - t > ttl` returns empty and evicts the entry.  The TTL scenario with
`ttl = 300000`, `t + 299999` and `t + 300001` is the witness below. -/
theorem c3_cache_ttl_boundary (c : ProductsCache) (t now : Nat)
    (params : SearchParams) (data : List Product) :
    (now - t ≤ c.timeout →
      ((c.set t params data).get now params).1 = some data ∧
      ((c.set t params data).get now params).2 = c.set t params data) ∧
    (now - t > c.timeout →
      ((c.set t params data).get now params).1 = none ∧
      (((c.set t params data).get now params).2).cache.lookup
        (generateKey params) = none) := by
  have hl := ProductsCache.lookup_set c t params data
  have ht := ProductsCache.timeout_set c t params data
  constructor
  · intro h
    simp only [ProductsCache.get, hl, ht]
    rw [if_neg (by omega)]
    exact ⟨rfl, rfl⟩
  · intro h
    simp only [ProductsCache.get, hl, ht]
    rw [if_pos (by omega)]
    exact ⟨rfl, lookup_filter_ne _ _⟩

/-- Witness for C3: the spec's scenario — `{query:"phone"}` cached at `t=0`
with TTL 300000 ms is served at `t=299999` and evicted (empty result, entry
gone) at `t=300001`. -/
theorem c3_witness :
    (((ProductsCache.empty 300000).set 0 [("query", JsonVal.str "phone")]
        [prodA]).get 299999 [("query", JsonVal.str "phone")]).1 = some [prodA] ∧
    (((ProductsCache.empty 300000).set 0 [("query", JsonVal.str "phone")]
        [prodA]).get 300001 [("query", JsonVal.str "phone")]).1 = none ∧
    ((((ProductsCache.empty 300000).set 0 [("query", JsonVal.str "phone")]
        [prodA]).get 300001 [("query", JsonVal.str "phone")]).2).cache.lookup
      (generateKey [("query", JsonVal.str "phone")]) = none := by
  refine ⟨((c3_cache_ttl_boundary (ProductsCache.empty 300000) 0 299999 _
      [prodA]).1 (by decide)).1,
    ((c3_cache_ttl_boundary (ProductsCache.empty 300000) 0 300001 _
      [prodA]).2 (by decide)).1,
    ((c3_cache_ttl_boundary (ProductsCache.empty 300000) 0 300001 _
      [prodA]).2 (by decide)).2⟩

/-!
## C9: aliasing of cached arrays
-/

/-- Reading the freshly allocated array. -/
theorem Heap.read_alloc (h : Heap) (xs : List Product) :
    Heap.read (h ++ [xs]) h.length = xs := by
  rw [Heap.read, List.getD_append_right _ _ _ _ (Nat.le_refl _), Nat.sub_self]
  rfl

/-- Writing one array leaves the others unchanged. -/
theorem Heap.read_write_ne (h : Heap) (r q : Nat) (xs : List Product)
    (hne : q ≠ r) : Heap.read (Heap.write h r xs) q = Heap.read h q := by
  rw [Heap.read, Heap.read, Heap.write, List.getD_eq_getD_get?,
    List.getD_eq_getD_get?, List.get?_eq_getElem?, List.get?_eq_getElem?,
    List.getElem?_set_ne (Ne.symm hne)]

/-- The entry written by `RefCache.set` is found by lookup and points at the
fresh copy. -/
theorem refCache_lookup_set (c : RefCache) (h : Heap) (now : Nat)
    (params : SearchParams) (r : Nat) :
    (c.set h now params r).1.cache.lookup (generateKey params) =
      some ⟨h.length, now⟩ := by
  unfold RefCache.set Heap.alloc
  by_cases hc : c.cache.any (fun kv => kv.1 = generateKey params) = true
  · simpa [hc] using lookup_replace c.cache (generateKey params) ⟨h.length, now⟩ hc
  · have hc' := eq_false_of_ne_true hc
    simpa [hc'] using
      lookup_append_single c.cache (generateKey params) ⟨h.length, now⟩ hc'

/-- `RefCache.set` keeps the TTL. -/
theorem refCache_timeout_set (c : RefCache) (h : Heap) (now : Nat)
    (params : SearchParams) (r : Nat) :
    (c.set h now params r).1.timeout = c.timeout := by
  unfold RefCache.set
  by_cases hc : c.cache.any (fun kv => kv.1 = generateKey params) = true <;>
    simp [hc]

/-- The heap after `RefCache.set` is the old heap plus the spread copy. -/
theorem refCache_heap_set (c : RefCache) (h : Heap) (now : Nat)
    (params : SearchParams) (r : Nat) :
    (c.set h now params r).2 = h ++ [h.read r] :=
  rfl

/-- C9 counterexample: `get` does **not** return a defensive copy.  The first
`get` hands back the stored reference (1); the caller appending `prodB`
through that reference changes the contents a later `get` observes from
`[prodA]` to `[prodA, prodB]`. -/
theorem c9_counterexample :
    (c9setRes.1.get 1 c9params).1 = some 1 ∧
    Heap.read c9setRes.2 1 = [prodA] ∧
    (c9setRes.1.get 2 c9params).1 = some 1 ∧
    Heap.read (Heap.write c9setRes.2 1 (Heap.read c9setRes.2 1 ++ [prodB])) 1
      ≠ [prodA] := by
  refine ⟨by decide, by decide, by decide, by decide⟩

/-- C9 amended: the defensive copy is made by `set`, not `get`: `set` stores
a fresh copy of the caller's array, so the cached contents observed by a
live `get` equal the set-time snapshot and survive the caller mutating the
array it passed to `set`; `get` itself returns the stored reference
uncopied (counterexample above). -/
theorem c9_defensive_copy_amended (c : RefCache) (h : Heap) (t now : Nat)
    (params : SearchParams) (r : Nat) (xs : List Product)
    (hr : r < h.length) (hlive : now - t ≤ c.timeout) :
    ((c.set h t params r).1.get now params).1 = some h.length ∧
    Heap.read (c.set h t params r).2 h.length = h.read r ∧
    Heap.read (Heap.write (c.set h t params r).2 r xs) h.length = h.read r := by
  have hl := refCache_lookup_set c h t params r
  have ht := refCache_timeout_set c h t params r
  have hh := refCache_heap_set c h t params r
  refine ⟨?_, ?_, ?_⟩
  · simp only [RefCache.get, hl, ht]
    rw [if_neg (by omega)]
  · rw [hh, Heap.read_alloc]
  · rw [hh, Heap.read_write_ne _ _ _ _ (Nat.ne_of_gt hr), Heap.read_alloc]

/-- Witness for the amended C9. -/
theorem c9_witness :
    (((RefCache.mk [] 300000).set [[prodA]] 0 c9params 0).1.get 1 c9params).1
      = some 1 ∧
    Heap.read (Heap.write ((RefCache.mk [] 300000).set [[prodA]] 0 c9params 0).2
      0 [prodA, prodB]) 1 = [prodA] := by
  have hmain := c9_defensive_copy_amended (RefCache.mk [] 300000) [[prodA]] 0 1
    c9params 0 [prodA, prodB] (by decide) (by decide)
  exact ⟨hmain.1, hmain.2.2⟩

/-!
## C2: the cache key is property-insertion-order dependent
-/

/-- C2 (source defect): `c2p1` and `c2p2` are field-wise equal parameter
objects that differ only in property-insertion order, yet `generateKey`
(`JSON.stringify` of the object) produces different keys for them, so the
required `encode(p1) == encode(p2)` fails on the source. -/
theorem c2_generateKey_order_dependent :
    FieldwiseEq c2p1 c2p2 ∧ generateKey c2p1 ≠ generateKey c2p2 := by
  constructor
  · intro k
    by_cases hq : k = "query"
    · subst hq; rfl
    · by_cases hp : k = "page"
      · subst hp; rfl
      · unfold canonField c2p1 c2p2
        rw [lookup_cons_ne _ _ _ _ hq, lookup_cons_ne _ _ _ _ hp,
          lookup_cons_ne _ _ _ _ hp, lookup_cons_ne _ _ _ _ hq]
  · decide

/-!
## Engine projection lemmas
-/

/-- `handleError` always produces the same `ProductsState`: the message
recorded and `loading` dropped, whatever the retry slot does. -/
theorem handleError_state (es : EngineState) (m : String)
    (rp : Option SearchParams) :
    (handleError es m rp).state =
      { es.state with error := some m, loading := false } := by
  unfold handleError
  cases rp with
  | none => rfl
  | some p => by_cases h : es.retryTimeout.isNone <;> simp [h]

/-- `handleError` touches neither the cache nor the pending requests nor the
abort bookkeeping. -/
theorem handleError_cache (es : EngineState) (m : String)
    (rp : Option SearchParams) : (handleError es m rp).cache = es.cache := by
  unfold handleError
  cases rp with
  | none => rfl
  | some p => by_cases h : es.retryTimeout.isNone <;> simp [h]

/-- See `handleError_cache`. -/
theorem handleError_abortedCtrls (es : EngineState) (m : String)
    (rp : Option SearchParams) :
    (handleError es m rp).abortedCtrls = es.abortedCtrls := by
  unfold handleError
  cases rp with
  | none => rfl
  | some p => by_cases h : es.retryTimeout.isNone <;> simp [h]

/-- See `handleError_cache`. -/
theorem handleError_pending (es : EngineState) (m : String)
    (rp : Option SearchParams) : (handleError es m rp).pending = es.pending := by
  unfold handleError
  cases rp with
  | none => rfl
  | some p => by_cases h : es.retryTimeout.isNone <;> simp [h]

/-!
## C4: retry scheduling
-/

/-- C4: resolving a primary fetch with a genuine (non-cancelled) failure —
non-2xx status, transport error, or `success=false` envelope — arms exactly
one retry of the same fetch with the fixed 2000 ms delay when no retry is
pending, and leaves an already-pending retry slot untouched (no second
concurrent retry). -/
theorem c4_retry_scheduled_once (es : EngineState) (rid c : Nat)
    (p : SearchParams) (out : NetOutcome)
    (_hmem : (⟨rid, some c, .primary p⟩ : Request) ∈ es.pending)
    (hc : c ∉ es.abortedCtrls) (hfail : out.isFailure = true) :
    (es.retryTimeout = none →
      (deliver es ⟨rid, some c, .primary p⟩ out).retryTimeout =
        some ⟨2000, p, true⟩) ∧
    (∀ tmr, es.retryTimeout = some tmr →
      (deliver es ⟨rid, some c, .primary p⟩ out).retryTimeout = some tmr) := by
  constructor
  · intro h0
    cases out with
    | httpError s => simp [deliver, hc, fetchResolve, handleError, h0]
    | netError m => simp [deliver, hc, fetchResolve, handleError, h0]
    | ok resp =>
      have hs : resp.success = false := by
        simpa [NetOutcome.isFailure] using hfail
      simp [deliver, hc, fetchResolve, hs, handleError, h0]
  · intro tmr htmr
    cases out with
    | httpError s => simp [deliver, hc, fetchResolve, handleError, htmr]
    | netError m => simp [deliver, hc, fetchResolve, handleError, htmr]
    | ok resp =>
      have hs : resp.success = false := by
        simpa [NetOutcome.isFailure] using hfail
      simp [deliver, hc, fetchResolve, hs, handleError, htmr]

/-- Witness for C4: an HTTP 500 on the in-flight request of `c4es` arms the
2000 ms retry of the same parameters; with that retry pending, a second
failure leaves the slot as it is. -/
theorem c4_witness :
    (deliver c4es ⟨0, some 0, .primary []⟩ (.httpError 500)).retryTimeout =
      some ⟨2000, [], true⟩ := by
  exact (c4_retry_scheduled_once c4es 0 0 [] (.httpError 500) (by decide)
    (by decide) (by decide)).1 rfl

/-!
## C5: envelope `success=false` handling
-/

/-- C5 counterexample: delivering a `loadMore` response whose envelope has
`success=false` records no error and leaves `loading` raised — the claimed
failure treatment (error message recorded, `loading` set to false) does not
happen on the load-more path. -/
theorem c5_counterexample :
    (deliver c5es c5req (.ok ⟨false, some "server rejected", some [], none⟩)).state.error
      = none ∧
    (deliver c5es c5req (.ok ⟨false, some "server rejected", some [], none⟩)).state.loading
      = true := by
  refine ⟨by decide, by decide⟩

/-- C5 amended: a primary-fetch response with `success=false` is treated as
a failure — the (server-supplied or default) error message is recorded,
`loading` drops, and loaded items are untouched — while a load-more response
with `success=false` is silently ignored: the whole `ProductsState`
(items, error, and the raised `loading` flag) stays exactly as it was. -/
theorem c5_envelope_failure_amended (es : EngineState) (rid c : Nat)
    (p np : SearchParams) (resp : Envelope)
    (hfail : resp.success = false) (hc : c ∉ es.abortedCtrls) :
    ((deliver es ⟨rid, some c, .primary p⟩ (.ok resp)).state.error =
        some (jsOr resp.message "Failed to fetch products") ∧
      (deliver es ⟨rid, some c, .primary p⟩ (.ok resp)).state.loading = false ∧
      (deliver es ⟨rid, some c, .primary p⟩ (.ok resp)).state.products =
        es.state.products) ∧
    ((deliver es ⟨rid, none, .more np⟩ (.ok resp)).state = es.state ∧
      (deliver es ⟨rid, none, .more np⟩ (.ok resp)).cache = es.cache) := by
  cases hit : resp.items <;>
    refine ⟨⟨?_, ?_, ?_⟩, ?_, ?_⟩ <;>
      simp [deliver, hc, fetchResolve, loadMoreResolve, hfail, hit,
        handleError_state]

/-- Witness for the amended C5: the concrete load-more scenario of the
counterexample leaves state untouched, and the same envelope on a primary
fetch records its message with `loading` dropped. -/
theorem c5_witness :
    (deliver c5es ⟨5, some 4, .primary []⟩
        (.ok ⟨false, some "server rejected", some [], none⟩)).state.error =
      some "server rejected" ∧
    (deliver c5es c5req
        (.ok ⟨false, some "server rejected", some [], none⟩)).state = c5es.state := by
  have hmain := c5_envelope_failure_amended c5es 5 4 [] [("page", JsonVal.num 2)]
    ⟨false, some "server rejected", some [], none⟩ (by decide) (by decide)
  exact ⟨hmain.1.1, hmain.2.1⟩

/-!
## C6: loadMore
-/

/-- `setField` makes the field hold the new value. -/
theorem lookup_setField_self (ps : SearchParams) (k : String) (v : JsonVal) :
    (setField ps k v).lookup k = some v := by
  unfold setField
  by_cases h : ps.any (fun kv => kv.1 = k) = true
  · simpa [h] using lookup_replace ps k v h
  · have h' := eq_false_of_ne_true h
    simpa [h'] using lookup_append_single ps k v h'

/-- `setField` leaves every other field alone. -/
theorem lookup_setField_ne (ps : SearchParams) (k k' : String) (v : JsonVal)
    (h : k' ≠ k) : (setField ps k v).lookup k' = ps.lookup k' := by
  unfold setField
  by_cases hc : ps.any (fun kv => kv.1 = k) = true
  · simpa [hc] using lookup_replace_ne ps k k' v h
  · have hc' := eq_false_of_ne_true hc
    simpa [hc'] using lookup_append_single_ne ps k k' v h

/-- JS `n || 0` is the identity on genuine numbers. -/
theorem jsNumOrZero_eq (n : Int) : jsNumOrZero n = n := by
  by_cases h : n = 0 <;> simp [jsNumOrZero, h]

/-- C6: with a next page available and no fetch in flight, `loadMore` issues
one request whose parameters are the current ones with `page` replaced by
`current_page + 1` (all other fields untouched), without consulting the
cache; on a successful response the returned items are appended after the
existing items (preserving their order), the pagination snapshot is replaced
wholesale, and the cache is not populated. -/
theorem c6_loadMore_appends (es : EngineState) (pg : PaginationMetadata)
    (np : SearchParams) (req : Request) (newItems : List Product)
    (newPg : PaginationMetadata) (msg : Option String)
    (hpg : es.state.pagination = some pg) (hnext : pg.has_next_page = true)
    (hload : es.state.loading = false)
    (hnp : np = setField es.searchParams "page" (.num (pg.current_page + 1)))
    (hreq : req = ⟨es.nextId, none, .more np⟩) :
    (loadMoreStart es).pending = es.pending ++ [req] ∧
    np.lookup "page" = some (.num (pg.current_page + 1)) ∧
    (∀ k, k ≠ "page" → np.lookup k = es.searchParams.lookup k) ∧
    (loadMoreStart es).cache = es.cache ∧
    (deliver (loadMoreStart es) req
      (.ok ⟨true, msg, some newItems, some newPg⟩)).state.products =
        es.state.products ++ newItems ∧
    (deliver (loadMoreStart es) req
      (.ok ⟨true, msg, some newItems, some newPg⟩)).state.pagination =
        some newPg ∧
    (deliver (loadMoreStart es) req
      (.ok ⟨true, msg, some newItems, some newPg⟩)).state.loading = false ∧
    (deliver (loadMoreStart es) req
      (.ok ⟨true, msg, some newItems, some newPg⟩)).state.error = none ∧
    (deliver (loadMoreStart es) req
      (.ok ⟨true, msg, some newItems, some newPg⟩)).cache = es.cache := by
  subst hnp
  subst hreq
  have hstart : loadMoreStart es = { es with
      state := { es.state with loading := true }
      pending := es.pending ++ [⟨es.nextId, none, .more (setField
        es.searchParams "page" (.num (pg.current_page + 1)))⟩]
      nextId := es.nextId + 1 } := by
    unfold loadMoreStart
    rw [hpg]
    simp [hnext, hload, jsNumOrZero_eq]
  refine ⟨by rw [hstart], lookup_setField_self _ _ _,
    fun k hk => lookup_setField_ne _ _ _ _ hk, by rw [hstart],
    ?_, ?_, ?_, ?_, ?_⟩ <;>
    simp [deliver, loadMoreResolve, hstart]

/-- Witness for C6: the spec's scenario — page 1 loaded, `loadMore` requests
page 2; on success items length becomes page-1 count + page-2 count and
`current_page` becomes 2. -/
theorem c6_witness :
    (loadMoreStart c6es).pending =
      [⟨0, none, .more [("page", JsonVal.num 2)]⟩] ∧
    (deliver (loadMoreStart c6es) ⟨0, none, .more [("page", JsonVal.num 2)]⟩
      (.ok ⟨true, none, some [prodB], some c6newPg⟩)).state.products =
        [prodA, prodB] ∧
    (deliver (loadMoreStart c6es) ⟨0, none, .more [("page", JsonVal.num 2)]⟩
      (.ok ⟨true, none, some [prodB], some c6newPg⟩)).state.pagination =
        some c6newPg := by
  have hmain := c6_loadMore_appends c6es c6pg [("page", JsonVal.num 2)]
    ⟨0, none, .more [("page", JsonVal.num 2)]⟩ [prodB] c6newPg none
    rfl rfl rfl (by decide) rfl
  exact ⟨hmain.1, hmain.2.2.2.2.1, hmain.2.2.2.2.2.1⟩

/-!
## More projection lemmas, and C10
-/

/-- `abort()` only marks the controller; the React state is untouched. -/
theorem cancelCurrent_state (es : EngineState) :
    (cancelCurrent es).state = es.state := by
  unfold cancelCurrent; cases es.currentCtrl <;> rfl

/-- See `cancelCurrent_state`. -/
theorem cancelCurrent_cache (es : EngineState) :
    (cancelCurrent es).cache = es.cache := by
  unfold cancelCurrent; cases es.currentCtrl <;> rfl

/-- See `cancelCurrent_state`. -/
theorem cancelCurrent_pending (es : EngineState) :
    (cancelCurrent es).pending = es.pending := by
  unfold cancelCurrent; cases es.currentCtrl <;> rfl

/-- See `cancelCurrent_state`. -/
theorem cancelCurrent_nextId (es : EngineState) :
    (cancelCurrent es).nextId = es.nextId := by
  unfold cancelCurrent; cases es.currentCtrl <;> rfl

/-- See `cancelCurrent_state`. -/
theorem cancelCurrent_now (es : EngineState) :
    (cancelCurrent es).now = es.now := by
  unfold cancelCurrent; cases es.currentCtrl <;> rfl

/-- C10: a live cache hit is published only while `loading` is false.  A
fetch invoked while another operation is in flight (`loading=true`) bypasses
the hit — the published products stay as they are and a network request is
issued anyway; with `loading=false` the hit is published and no request is
issued. -/
theorem c10_cache_bypass_while_loading (es : EngineState) (p : SearchParams)
    (d : List Product) (hhit : (es.cache.get es.now p).1 = some d) :
    (es.state.loading = true →
      (fetchStart es p).pending = es.pending ++
        [⟨es.nextId, some es.nextId, .primary p⟩] ∧
      (fetchStart es p).state.products = es.state.products ∧
      (fetchStart es p).state.loading = true) ∧
    (es.state.loading = false →
      (fetchStart es p).pending = es.pending ∧
      (fetchStart es p).state.products = d ∧
      (fetchStart es p).state.loading = false ∧
      (fetchStart es p).state.error = none ∧
      (fetchStart es p).state.lastFetchTime = some es.now) := by
  rcases hg : es.cache.get es.now p with ⟨r1, c2⟩
  rw [hg] at hhit
  simp only at hhit
  subst hhit
  constructor <;> intro hl <;>
    simp [fetchStart, fetchStart.fetchIssue, cancelCurrent_state,
      cancelCurrent_cache, cancelCurrent_pending, cancelCurrent_nextId,
      cancelCurrent_now, hg, hl]

/-- Witness for C10: with `{}` cached and live, a fetch during an in-flight
fetch issues a request and keeps the published products; the same fetch
while idle publishes the hit without issuing a request. -/
theorem c10_witness :
    (fetchStart c10esBusy []).pending =
      [⟨0, some 0, .primary []⟩, ⟨1, some 1, .primary []⟩] ∧
    (fetchStart c10esIdle []).pending = [] ∧
    (fetchStart c10esIdle []).state.products = [prodA] := by
  have hbusy := (c10_cache_bypass_while_loading c10esBusy [] [prodA]
    (by decide)).1 rfl
  have hidle := (c10_cache_bypass_while_loading c10esIdle [] [prodA]
    (by decide)).2 rfl
  exact ⟨hbusy.1, hidle.1, hidle.2.1⟩

/-!
## C7: in-flight exclusivity
-/

/-- C7 counterexample: in the reachable state `c7es4` — a fetch begun while
a `loadMore` request was in flight — two network operations are pending at
once, and the `loadMore` request carries no abort controller, so the new
fetch could not cancel it. -/
theorem c7_counterexample :
    c7es4.pending = [⟨1, none, .more [("page", JsonVal.num 2)]⟩,
      ⟨2, some 2, .primary [("query", JsonVal.str "x")]⟩] ∧
    c7es4.pending.length = 2 := by
  refine ⟨by decide, by decide⟩

/-- C7 amended: beginning a new fetch aborts the previous primary
controller before issuing a new request, but it removes nothing from the
pending set, and load-more requests have no controller to abort — so a
fetch begun during a load-more leaves two operations in flight. -/
theorem c7_supersession_amended (es : EngineState) (p : SearchParams)
    (c : Nat) (hc : es.currentCtrl = some c) :
    c ∈ (fetchStart es p).abortedCtrls ∧
    (∀ r ∈ es.pending, r ∈ (fetchStart es p).pending) := by
  have hab : (cancelCurrent es).abortedCtrls = c :: es.abortedCtrls := by
    unfold cancelCurrent; rw [hc]
  rcases hg : (cancelCurrent es).cache.get (cancelCurrent es).now p with ⟨r1, c2⟩
  constructor
  · cases r1 with
    | none => simp [fetchStart, fetchStart.fetchIssue, hg, hab]
    | some d =>
      by_cases hl : es.state.loading = true <;>
        simp [fetchStart, fetchStart.fetchIssue, hg, hab, cancelCurrent_state, hl]
  · intro r hr
    cases r1 with
    | none =>
      simp [fetchStart, fetchStart.fetchIssue, hg, cancelCurrent_pending]
      exact Or.inl hr
    | some d =>
      by_cases hl : es.state.loading = true <;>
        simp [fetchStart, fetchStart.fetchIssue, hg, cancelCurrent_state,
          cancelCurrent_pending, hl] <;>
        first
        | exact Or.inl hr
        | exact hr

/-- Witness for the amended C7: the new fetch in the `c7es3` → `c7es4` step
aborts controller 0 (the previous primary fetch's), while the pending
`loadMore` request survives. -/
theorem c7_witness :
    0 ∈ (fetchStart c7es3 [("query", JsonVal.str "x")]).abortedCtrls ∧
    (⟨1, none, .more [("page", JsonVal.num 2)]⟩ : Request) ∈
      (fetchStart c7es3 [("query", JsonVal.str "x")]).pending := by
  have hmain := c7_supersession_amended c7es3 [("query", JsonVal.str "x")] 0
    (by decide)
  exact ⟨hmain.1, hmain.2 _ (by decide)⟩

/-!
## C8: parameter updates
-/

/-- A key outside an association list's keys looks up to nothing. -/
theorem lookup_none_of_not_mem {α : Type} (l : List (String × α)) (k : String)
    (h : k ∉ l.map Prod.fst) : l.lookup k = none := by
  induction l with
  | nil => rfl
  | cons kv rest ih =>
    rcases kv with ⟨k', v⟩
    simp only [List.map_cons, List.mem_cons] at h
    push_neg at h
    rw [lookup_cons_ne _ _ _ _ h.1, ih h.2]

/-- Shallow-merge semantics of the JS spread `{...base, ...upd}`: a field of
the update wins, every other field keeps its old value.  (Update keys are
unique, as in any JS object literal.) -/
theorem lookup_mergeParams (base upd : SearchParams) (k : String)
    (hnd : (upd.map Prod.fst).Nodup) :
    (mergeParams base upd).lookup k =
      match upd.lookup k with
      | some v => some v
      | none => base.lookup k := by
  induction upd generalizing base with
  | nil => rfl
  | cons kv rest ih =>
    rcases kv with ⟨k', v'⟩
    simp only [List.map_cons, List.nodup_cons] at hnd
    show (mergeParams (setField base k' v') rest).lookup k = _
    rw [ih _ hnd.2]
    by_cases hk : k = k'
    · subst hk
      have hrest : rest.lookup k = none :=
        lookup_none_of_not_mem rest k hnd.1
      rw [hrest, lookup_setField_self, lookup_cons_self]
    · rw [lookup_setField_ne _ _ _ _ hk, lookup_cons_ne _ _ _ _ hk]

/-- C8 counterexample: after `updateSearchParams({query:"x"})` alone no
request is pending, but the re-run of the parameter effect it causes (its
`searchParams` dependency changed) dispatches a fetch when `autoFetch` is
set — a network request exists although the caller never invoked `fetch` or
`refetch`. -/
theorem c8_counterexample :
    c8es1.pending = [] ∧
    c8es1.searchParams = [("query", JsonVal.str "x")] ∧
    c8es2.pending.length = 1 := by
  refine ⟨by decide, by decide, by decide⟩

/-- C8 amended: `updateSearchParams` itself merges the partial update by
shallow field replacement and performs no fetch — no request issued, no
cache touched, no state change; but a fetch can still follow without any
explicit `fetch`/`refetch` call, because the parameter effect re-runs and
auto-dispatches when `autoFetch` is true (counterexample above); with
`autoFetch=false` the effect re-run issues nothing. -/
theorem c8_update_params_amended (es : EngineState) (upd : SearchParams)
    (hnd : (upd.map Prod.fst).Nodup) :
    (∀ k, (updateSearchParams es upd).searchParams.lookup k =
      match upd.lookup k with
      | some v => some v
      | none => es.searchParams.lookup k) ∧
    (updateSearchParams es upd).pending = es.pending ∧
    (updateSearchParams es upd).state = es.state ∧
    (updateSearchParams es upd).cache = es.cache ∧
    (updateSearchParams es upd).currentCtrl = es.currentCtrl ∧
    (updateSearchParams es upd).retryTimeout = es.retryTimeout ∧
    (searchParamsEffect (updateSearchParams es upd) false).pending =
      es.pending := by
  refine ⟨fun k => lookup_mergeParams es.searchParams upd k hnd,
    rfl, rfl, rfl, rfl, rfl, ?_⟩
  simp [searchParamsEffect, cancelCurrent_pending, updateSearchParams]

/-- Witness for the amended C8. -/
theorem c8_witness :
    (updateSearchParams c8es0 [("query", JsonVal.str "x")]).searchParams.lookup
      "query" = some (JsonVal.str "x") ∧
    (updateSearchParams c8es0 [("query", JsonVal.str "x")]).pending = [] ∧
    (searchParamsEffect (updateSearchParams c8es0
      [("query", JsonVal.str "x")]) false).pending = [] := by
  have hmain := c8_update_params_amended c8es0 [("query", JsonVal.str "x")]
    (by decide)
  exact ⟨hmain.1 "query", hmain.2.1, hmain.2.2.2.2.2.2⟩

/-!
## C1: supersession — delivery lemmas
-/

/-- Closed form of `fetchProducts` on a cache miss: previous controller
aborted, a fresh controller installed, `loading` raised, and the request
issued. -/
theorem fetchStart_miss (es : EngineState) (p : SearchParams)
    (h : (es.cache.get es.now p).1 = none) :
    fetchStart es p = { es with
      state := { es.state with loading := true, error := none }
      cache := (es.cache.get es.now p).2
      currentCtrl := some es.nextId
      abortedCtrls := (cancelCurrent es).abortedCtrls
      pending := es.pending ++ [⟨es.nextId, some es.nextId, .primary p⟩]
      nextId := es.nextId + 1 } := by
  rcases hg : es.cache.get es.now p with ⟨r1, c2⟩
  rw [hg] at h
  simp only at h
  subst h
  unfold fetchStart fetchStart.fetchIssue
  cases hc : es.currentCtrl <;> simp [cancelCurrent, hc, hg]

/-- The continuation of a primary fetch reads nothing from the pending set:
its published state, cache and abort bookkeeping are insensitive to it. -/
theorem fetchResolve_set_pending (es : EngineState) (x : List Request)
    (p : SearchParams) (out : NetOutcome) :
    (fetchResolve { es with pending := x } p out).state =
      (fetchResolve es p out).state ∧
    (fetchResolve { es with pending := x } p out).cache =
      (fetchResolve es p out).cache ∧
    (fetchResolve { es with pending := x } p out).abortedCtrls =
      es.abortedCtrls := by
  cases out with
  | httpError s =>
    simp [fetchResolve, handleError_state, handleError_cache,
      handleError_abortedCtrls]
  | netError m =>
    simp [fetchResolve, handleError_state, handleError_cache,
      handleError_abortedCtrls]
  | ok resp =>
    by_cases hs : resp.success <;>
      simp [fetchResolve, hs, handleError_state, handleError_cache,
        handleError_abortedCtrls]

/-- See `fetchResolve_set_pending`. -/
theorem loadMoreResolve_set_pending (es : EngineState) (x : List Request)
    (out : NetOutcome) :
    (loadMoreResolve { es with pending := x } out).state =
      (loadMoreResolve es out).state ∧
    (loadMoreResolve { es with pending := x } out).cache =
      (loadMoreResolve es out).cache ∧
    (loadMoreResolve { es with pending := x } out).abortedCtrls =
      es.abortedCtrls := by
  cases out with
  | httpError s =>
    simp [loadMoreResolve, handleError_state, handleError_cache,
      handleError_abortedCtrls]
  | netError m =>
    simp [loadMoreResolve, handleError_state, handleError_cache,
      handleError_abortedCtrls]
  | ok resp =>
    cases hit : resp.items with
    | none => simp [loadMoreResolve, hit]
    | some xs => by_cases hs : resp.success <;> simp [loadMoreResolve, hit, hs]

/-- No continuation ever adds or removes an aborted controller. -/
theorem deliver_abortedCtrls (es : EngineState) (req : Request)
    (out : NetOutcome) :
    (deliver es req out).abortedCtrls = es.abortedCtrls := by
  rcases req with ⟨rid, ctrl, kind⟩
  cases kind with
  | primary p =>
    cases ctrl with
    | none =>
      simpa [deliver] using
        (fetchResolve_set_pending es
          (es.pending.filter fun r => r.id ≠ rid) p out).2.2
    | some c =>
      by_cases hc : c ∈ es.abortedCtrls
      · simp [deliver, hc]
      · simpa [deliver, hc] using
          (fetchResolve_set_pending es
            (es.pending.filter fun r => r.id ≠ rid) p out).2.2
  | more np =>
    simpa [deliver] using
      (loadMoreResolve_set_pending es
        (es.pending.filter fun r => r.id ≠ rid) out).2.2

/-- Delivering the resolution of a request whose controller was aborted
while it was pending only removes it from the pending set: the `AbortError`
early return mutates nothing (source lines 208-212). -/
theorem deliver_aborted (es : EngineState) (rid c : Nat) (p : SearchParams)
    (out : NetOutcome) (hc : c ∈ es.abortedCtrls) :
    deliver es ⟨rid, some c, .primary p⟩ out =
      { es with pending := es.pending.filter fun r => r.id ≠ rid } := by
  simp [deliver, hc]

/-- What `deliver` publishes to state and cache is independent of the
pending set it starts from. -/
theorem deliver_set_pending (es : EngineState) (x : List Request)
    (req : Request) (out : NetOutcome) :
    (deliver { es with pending := x } req out).state =
      (deliver es req out).state ∧
    (deliver { es with pending := x } req out).cache =
      (deliver es req out).cache := by
  rcases req with ⟨rid, ctrl, kind⟩
  cases kind with
  | primary p =>
    cases ctrl with
    | none =>
      have h1 := fetchResolve_set_pending es (x.filter fun r => r.id ≠ rid) p out
      have h2 := fetchResolve_set_pending es
        (es.pending.filter fun r => r.id ≠ rid) p out
      simp only [deliver]
      exact ⟨h1.1.trans h2.1.symm, h1.2.1.trans h2.2.1.symm⟩
    | some c =>
      by_cases hc : c ∈ es.abortedCtrls
      · simp [deliver, hc]
      · have h1 := fetchResolve_set_pending es (x.filter fun r => r.id ≠ rid) p out
        have h2 := fetchResolve_set_pending es
          (es.pending.filter fun r => r.id ≠ rid) p out
        simp only [deliver, hc, if_false, eq_self_iff_true, if_neg,
          decide_eq_true_eq]
        exact ⟨h1.1.trans h2.1.symm, h1.2.1.trans h2.2.1.symm⟩
  | more np =>
    have h1 := loadMoreResolve_set_pending es (x.filter fun r => r.id ≠ rid) out
    have h2 := loadMoreResolve_set_pending es
      (es.pending.filter fun r => r.id ≠ rid) out
    simp only [deliver]
    exact ⟨h1.1.trans h2.1.symm, h1.2.1.trans h2.2.1.symm⟩

/-- C1: `fetch(pA)` misses the cache and issues request A; `fetch(pB)` is
begun before A resolves, missing the cache and issuing request B.  Then A's
controller is aborted, both requests are in flight, and: A's response —
whenever it arrives, whatever it carries — mutates neither the
`ProductsState` nor the cache; in either delivery order the final state and
cache are exactly those produced by B's response alone; and a successful B
response is applied (its items, pagination, cleared error).  The
well-formedness hypotheses say controller ids already used are below the
fresh-id counter, as in every reachable state. -/
theorem c1_superseded_fetch_never_applied (es0 : EngineState)
    (pA pB : SearchParams) (reqA reqB : Request) (fs2 : EngineState)
    (hA : (es0.cache.get es0.now pA).1 = none)
    (hB : ((fetchStart es0 pA).cache.get (fetchStart es0 pA).now pB).1 = none)
    (hwf1 : ∀ c ∈ es0.abortedCtrls, c < es0.nextId)
    (hwf2 : ∀ c ∈ es0.currentCtrl, c < es0.nextId)
    (hreqA : reqA = ⟨es0.nextId, some es0.nextId, .primary pA⟩)
    (hreqB : reqB = ⟨es0.nextId + 1, some (es0.nextId + 1), .primary pB⟩)
    (hfs2 : fs2 = fetchStart (fetchStart es0 pA) pB) :
    fs2.pending = es0.pending ++ [reqA, reqB] ∧
    (∀ outA, (deliver fs2 reqA outA).state = fs2.state ∧
      (deliver fs2 reqA outA).cache = fs2.cache) ∧
    (∀ outA outB,
      (deliver (deliver fs2 reqA outA) reqB outB).state =
        (deliver fs2 reqB outB).state ∧
      (deliver (deliver fs2 reqA outA) reqB outB).cache =
        (deliver fs2 reqB outB).cache) ∧
    (∀ outA outB,
      (deliver (deliver fs2 reqB outB) reqA outA).state =
        (deliver fs2 reqB outB).state ∧
      (deliver (deliver fs2 reqB outB) reqA outA).cache =
        (deliver fs2 reqB outB).cache) ∧
    (∀ respB, respB.success = true →
      (deliver fs2 reqB (.ok respB)).state.products = respB.items.getD [] ∧
      (deliver fs2 reqB (.ok respB)).state.pagination = respB.pagination ∧
      (deliver fs2 reqB (.ok respB)).state.loading = false ∧
      (deliver fs2 reqB (.ok respB)).state.error = none) := by
  have e1 := fetchStart_miss es0 pA hA
  have e2 := fetchStart_miss (fetchStart es0 pA) pB hB
  subst hreqA
  subst hreqB
  subst hfs2
  have habort : (fetchStart (fetchStart es0 pA) pB).abortedCtrls =
      es0.nextId :: (cancelCurrent es0).abortedCtrls := by
    rw [e2, e1]
    simp [cancelCurrent]
  have hmemA : es0.nextId ∈ (fetchStart (fetchStart es0 pA) pB).abortedCtrls := by
    rw [habort]
    exact List.mem_cons_self _ _
  have hmemB : es0.nextId + 1 ∉
      (fetchStart (fetchStart es0 pA) pB).abortedCtrls := by
    rw [habort]
    intro hmem
    rcases List.mem_cons.mp hmem with h | h
    · omega
    · rcases hc : es0.currentCtrl with _ | c0
      · rw [cancelCurrent, hc] at h
        have := hwf1 _ h
        omega
      · rw [cancelCurrent, hc] at h
        simp only [List.mem_cons] at h
        rcases h with h | h
        · have := hwf2 c0 hc
          omega
        · have := hwf1 _ h
          omega
  refine ⟨?_, ?_, ?_, ?_, ?_⟩
  · rw [e2, e1]
    simp
  · intro outA
    constructor <;> rw [deliver_aborted _ _ _ _ _ hmemA]
  · intro outA outB
    rw [deliver_aborted _ _ _ _ _ hmemA]
    exact deliver_set_pending _ _ _ _
  · intro outA outB
    have hmemA' : es0.nextId ∈ (deliver (fetchStart (fetchStart es0 pA) pB)
        ⟨es0.nextId + 1, some (es0.nextId + 1), .primary pB⟩ outB).abortedCtrls := by
      rw [deliver_abortedCtrls]
      exact hmemA
    constructor <;> rw [deliver_aborted _ _ _ _ _ hmemA']
  · intro respB hsucc
    refine ⟨?_, ?_, ?_, ?_⟩ <;> simp [deliver, hmemB, fetchResolve, hsucc]

/-- Witness for C1: `fetch({})` then `fetch({query:"x"})` before the first
resolves; in both delivery orders — even with the superseded response
arriving last, carrying `prodA` — the published products are `[prodB]`,
the second fetch's result. -/
theorem c1_witness :
    (deliver (deliver (fetchStart (fetchStart c1es0 [])
        [("query", JsonVal.str "x")])
        ⟨1, some 1, .primary [("query", JsonVal.str "x")]⟩ c1outB)
        ⟨0, some 0, .primary []⟩ c1outA).state.products = [prodB] ∧
    (deliver (deliver (fetchStart (fetchStart c1es0 [])
        [("query", JsonVal.str "x")])
        ⟨0, some 0, .primary []⟩ c1outA)
        ⟨1, some 1, .primary [("query", JsonVal.str "x")]⟩
        c1outB).state.products = [prodB] := by
  have hmain := c1_superseded_fetch_never_applied c1es0 []
    [("query", JsonVal.str "x")] ⟨0, some 0, .primary []⟩
    ⟨1, some 1, .primary [("query", JsonVal.str "x")]⟩
    (fetchStart (fetchStart c1es0 []) [("query", JsonVal.str "x")])
    (by decide) (by decide) (by decide) (by simp [c1es0, initEngine])
    rfl rfl rfl
  have happl := (hmain.2.2.2.2 c1respB rfl).1
  constructor
  · rw [(hmain.2.2.2.1 c1outA c1outB).1]
    exact happl.trans (by decide)
  · rw [(hmain.2.2.1 c1outA c1outB).1]
    exact happl.trans (by decide)

end PalmSync
